import Mathlib

/-!
Shallow embedding of `core/templates/domain/statistics/learner-action.model.ts`
(Oppia's Learner Action domain model): the closed set of learner action kinds,
the customization-args payloads, the wire dictionary, the factory methods that
stamp the latest schema version, `toBackendDict` (encode) and
`createFromBackendDict` (decode).
-/

/-- Leaf JSON values occurring in customization-args fields: the source's
payload interfaces only use `string` and `number` field values. -/
inductive JsonLeaf where
  | str (s : String)
  | num (n : Int)
  deriving DecidableEq, Repr

/-- A JSON value stored in a customization-args field: either a bare leaf or a
one-level object, which is enough to express the source's per-field
wrapped form (an object with a single "value" key) as well as unwrapped
leaves. -/
inductive JsonValue where
  | leaf (v : JsonLeaf)
  | obj (fields : List (String × JsonLeaf))
  deriving DecidableEq, Repr

/-- A customization-args dictionary: field name to JSON value, as carried both
in memory (`actionCustomizationArgs`) and on the wire
(`action_customization_args`) — the source passes it through verbatim in both
directions. -/
abbrev CustomizationArgs := List (String × JsonValue)

/-- JSON rendering of a leaf, as `angular.toJson` would print it. -/
def JsonLeaf.render : JsonLeaf → String
  | .str s => "\"" ++ s ++ "\""
  | .num n => toString n

/-- JSON rendering of the fields of a one-level object. -/
def renderLeafFields : List (String × JsonLeaf) → String
  | [] => ""
  | [(k, v)] => "\"" ++ k ++ "\":" ++ v.render
  | (k, v) :: rest => "\"" ++ k ++ "\":" ++ v.render ++ "," ++ renderLeafFields rest

/-- JSON rendering of a field value. -/
def JsonValue.render : JsonValue → String
  | .leaf v => v.render
  | .obj fields => "\x7b" ++ renderLeafFields fields ++ "\x7d"

/-- JSON rendering of the entries of a customization-args dictionary. -/
def renderArgFields : CustomizationArgs → String
  | [] => ""
  | [(k, v)] => "\"" ++ k ++ "\":" ++ v.render
  | (k, v) :: rest => "\"" ++ k ++ "\":" ++ v.render ++ "," ++ renderArgFields rest

/-- JSON rendering of a customization-args dictionary as an object. -/
def renderArgs (args : CustomizationArgs) : String :=
  "\x7b" ++ renderArgFields args ++ "\x7d"

/-- The `LearnerActionType` string enum (source lines 60-64). -/
inductive LearnerActionType where
  | ExplorationStart
  | AnswerSubmit
  | ExplorationQuit
  deriving DecidableEq, Repr

/-- The string value of each `LearnerActionType` enum member. -/
def LearnerActionType.toStr : LearnerActionType → String
  | .ExplorationStart => "ExplorationStart"
  | .AnswerSubmit => "AnswerSubmit"
  | .ExplorationQuit => "ExplorationQuit"

/-- The wire dictionary `LearnerActionBackendDict` (source lines 54-58), with
`action_type` as an arbitrary string so that unrecognized tags are
expressible, as they are for the untyped dictionaries `createFromBackendDict`
receives at runtime. -/
structure LearnerActionBackendDict where
  action_type : String
  action_customization_args : CustomizationArgs
  schema_version : Int
  deriving DecidableEq, Repr

/-- `angular.toJson` of a backend dict, used in the decode error message
(source lines 172-174). -/
def LearnerActionBackendDict.toJson (d : LearnerActionBackendDict) : String :=
  "\x7b\"action_type\":\"" ++ d.action_type ++
    "\",\"action_customization_args\":" ++ renderArgs d.action_customization_args ++
    ",\"schema_version\":" ++ toString d.schema_version ++ "\x7d"

/-- The `LearnerAction` union (source lines 98-110): one constructor per
concrete subclass of `LearnerActionBase`; each carries the two remaining
constructor fields (`actionCustomizationArgs`, `schemaVersion`), the
`actionType` tag being determined by the subclass. -/
inductive LearnerAction where
  | explorationStart (actionCustomizationArgs : CustomizationArgs) (schemaVersion : Int)
  | answerSubmit (actionCustomizationArgs : CustomizationArgs) (schemaVersion : Int)
  | explorationQuit (actionCustomizationArgs : CustomizationArgs) (schemaVersion : Int)
  deriving DecidableEq, Repr

/-- The `actionType` field (source line 84): fixed per subclass. -/
def LearnerAction.actionType : LearnerAction → LearnerActionType
  | .explorationStart _ _ => .ExplorationStart
  | .answerSubmit _ _ => .AnswerSubmit
  | .explorationQuit _ _ => .ExplorationQuit

/-- The `actionCustomizationArgs` field (source line 85). -/
def LearnerAction.actionCustomizationArgs : LearnerAction → CustomizationArgs
  | .explorationStart args _ => args
  | .answerSubmit args _ => args
  | .explorationQuit args _ => args

/-- The `schemaVersion` field (source line 86). -/
def LearnerAction.schemaVersion : LearnerAction → Int
  | .explorationStart _ v => v
  | .answerSubmit _ v => v
  | .explorationQuit _ v => v

/-- `LearnerActionBase.toBackendDict` (source lines 89-95): emits the three
fields of the instance verbatim. -/
def LearnerAction.toBackendDict (a : LearnerAction) : LearnerActionBackendDict :=
  { action_type := a.actionType.toStr,
    action_customization_args := a.actionCustomizationArgs,
    schema_version := a.schemaVersion }

/-- `LearnerActionModel.createNewExplorationStartAction` (source lines
113-119). `latestSchemaVersion` models the external registry constant
`StatisticsDomainConstants.LEARNER_ACTION_SCHEMA_LATEST_VERSION`, passed
explicitly since it is a process-wide constant read at call time. -/
def LearnerActionModel.createNewExplorationStartAction
    (latestSchemaVersion : Int) (actionCustomizationArgs : CustomizationArgs) :
    LearnerAction :=
  .explorationStart actionCustomizationArgs latestSchemaVersion

/-- `LearnerActionModel.createNewAnswerSubmitAction` (source lines 121-127). -/
def LearnerActionModel.createNewAnswerSubmitAction
    (latestSchemaVersion : Int) (actionCustomizationArgs : CustomizationArgs) :
    LearnerAction :=
  .answerSubmit actionCustomizationArgs latestSchemaVersion

/-- `LearnerActionModel.createNewExplorationQuitAction` (source lines
129-135). -/
def LearnerActionModel.createNewExplorationQuitAction
    (latestSchemaVersion : Int) (actionCustomizationArgs : CustomizationArgs) :
    LearnerAction :=
  .explorationQuit actionCustomizationArgs latestSchemaVersion

/-- The generic `create(K, P)` of the specification: dispatch to the
per-kind factory method for `K` (each factory is a thin wrapper fixing the
kind, so this is exactly the per-kind factories gathered under one name). -/
def LearnerActionModel.create (latestSchemaVersion : Int) :
    LearnerActionType → CustomizationArgs → LearnerAction
  | .ExplorationStart, P => LearnerActionModel.createNewExplorationStartAction latestSchemaVersion P
  | .AnswerSubmit, P => LearnerActionModel.createNewAnswerSubmitAction latestSchemaVersion P
  | .ExplorationQuit, P => LearnerActionModel.createNewExplorationQuitAction latestSchemaVersion P

/-- `LearnerActionModel.createFromBackendDict` (source lines 150-175): switch
on `action_type` over the three enum values, constructing the matching
subclass with the dict's `action_customization_args` and `schema_version`
verbatim; the default branch throws an Error whose message embeds
`angular.toJson` of the offending dict, modelled as `Except.error`. -/
def LearnerActionModel.createFromBackendDict
    (d : LearnerActionBackendDict) : Except String LearnerAction :=
  if d.action_type = LearnerActionType.ExplorationStart.toStr then
    Except.ok (.explorationStart d.action_customization_args d.schema_version)
  else if d.action_type = LearnerActionType.AnswerSubmit.toStr then
    Except.ok (.answerSubmit d.action_customization_args d.schema_version)
  else if d.action_type = LearnerActionType.ExplorationQuit.toStr then
    Except.ok (.explorationQuit d.action_customization_args d.schema_version)
  else
    Except.error ("Backend dict does not match any known action type: " ++ d.toJson)

/-- Whether a string is the tag of one of the three known action kinds
(the tags handled by the switch in `createFromBackendDict`). -/
def isKnownActionType (s : String) : Bool :=
  s == LearnerActionType.ExplorationStart.toStr ||
  s == LearnerActionType.AnswerSubmit.toStr ||
  s == LearnerActionType.ExplorationQuit.toStr

/-- The declared value type of a customization-args field: string or number
(from the interfaces at source lines 23-39). -/
inductive FieldKind where
  | strField
  | numField
  deriving DecidableEq, Repr

/-- The per-kind payload field table, read off the three customization-args
interfaces (source lines 23-39): field name to declared wrapped value type. -/
def fieldSpec : LearnerActionType → String → Option FieldKind
  | .ExplorationStart, "state_name" => some .strField
  | .AnswerSubmit, "state_name" => some .strField
  | .AnswerSubmit, "dest_state_name" => some .strField
  | .AnswerSubmit, "interaction_id" => some .strField
  | .AnswerSubmit, "submitted_answer" => some .strField
  | .AnswerSubmit, "feedback" => some .strField
  | .AnswerSubmit, "time_spent_state_in_msecs" => some .numField
  | .ExplorationQuit, "state_name" => some .strField
  | .ExplorationQuit, "time_spent_in_state_in_msecs" => some .numField
  | _, _ => none

/-- The field names each kind's payload interface declares (source lines
23-39). -/
def requiredKeys : LearnerActionType → List String
  | .ExplorationStart => ["state_name"]
  | .AnswerSubmit =>
    ["state_name", "dest_state_name", "interaction_id", "submitted_answer",
     "feedback", "time_spent_state_in_msecs"]
  | .ExplorationQuit => ["state_name", "time_spent_in_state_in_msecs"]

/-- A value of the wrapped-string shape required by a field declared as
`{value: string}`. -/
def JsonValue.isWrappedStr : JsonValue → Bool
  | .obj [("value", .str _)] => true
  | _ => false

/-- A value of the wrapped-number shape required by a field declared as
`{value: number}`. -/
def JsonValue.isWrappedNum : JsonValue → Bool
  | .obj [("value", .num _)] => true
  | _ => false

/-- A value in the per-field wrapped form, an object with the single key
"value". -/
def JsonValue.isWrapped : JsonValue → Bool
  | .obj [("value", _)] => true
  | _ => false

/-- Whether one customization-args entry conforms to kind `K`'s payload
interface: its field name is declared for `K` and its value has the declared
wrapped shape. -/
def fieldOk (K : LearnerActionType) (p : String × JsonValue) : Bool :=
  match fieldSpec K p.1 with
  | some .strField => p.2.isWrappedStr
  | some .numField => p.2.isWrappedNum
  | none => false

/-- Structural validity of a payload for kind `K`, as the customization-args
interface for `K` (source lines 23-39) prescribes: every present field is a
declared field with a value of the declared wrapped shape, and every declared
field is present. -/
def validArgsFor (K : LearnerActionType) (args : CustomizationArgs) : Bool :=
  args.all (fieldOk K) && (requiredKeys K).all (fun k => (args.lookup k).isSome)

/-- Every field value of the dictionary is in the per-field wrapped
`{value: _}` form. -/
def allFieldsWrapped (args : CustomizationArgs) : Bool :=
  args.all (fun p => p.2.isWrapped)

/-- Assignment `a.actionType := t`, modelling a TS property write on the
instance: rejected (no resulting object) because `actionType` is declared
`readonly` in the constructor of `LearnerActionBase` (source line 84). -/
def LearnerAction.setActionType (_a : LearnerAction) (_t : LearnerActionType) :
    Option LearnerAction :=
  none

/-- Assignment `a.schemaVersion := v`, modelling a TS property write on the
instance: accepted, since `schemaVersion` is a plain public field (source
line 86, no `readonly`), yielding the updated object. -/
def LearnerAction.setSchemaVersion : LearnerAction → Int → Option LearnerAction
  | .explorationStart args _, v => some (.explorationStart args v)
  | .answerSubmit args _, v => some (.answerSubmit args v)
  | .explorationQuit args _, v => some (.explorationQuit args v)

/-- Assignment `a.actionCustomizationArgs := args`, modelling a TS property
write on the instance: accepted, since `actionCustomizationArgs` is a plain
public field (source line 85, no `readonly`), yielding the updated object. -/
def LearnerAction.setActionCustomizationArgs :
    LearnerAction → CustomizationArgs → Option LearnerAction
  | .explorationStart _ v, args => some (.explorationStart args v)
  | .answerSubmit _ v, args => some (.answerSubmit args v)
  | .explorationQuit _ v, args => some (.explorationQuit args v)

/-! ### Helper lemmas -/

theorem isKnownActionType_iff (s : String) :
    isKnownActionType s = true ↔
      s = "ExplorationStart" ∨ s = "AnswerSubmit" ∨ s = "ExplorationQuit" := by
  simp [isKnownActionType, LearnerActionType.toStr, or_assoc]

theorem exists_kind_of_known (s : String) (h : isKnownActionType s = true) :
    ∃ K : LearnerActionType, s = K.toStr := by
  rcases (isKnownActionType_iff s).mp h with h | h | h
  exacts [⟨.ExplorationStart, h⟩, ⟨.AnswerSubmit, h⟩, ⟨.ExplorationQuit, h⟩]

theorem decode_of_action_type_eq (d : LearnerActionBackendDict) (K : LearnerActionType)
    (h : d.action_type = K.toStr) :
    ∃ a : LearnerAction,
      LearnerActionModel.createFromBackendDict d = Except.ok a ∧
      a.actionType = K ∧
      a.actionCustomizationArgs = d.action_customization_args ∧
      a.schemaVersion = d.schema_version := by
  cases K
  case ExplorationStart =>
    refine ⟨LearnerAction.explorationStart d.action_customization_args d.schema_version,
      ?_, rfl, rfl, rfl⟩
    simp [LearnerActionModel.createFromBackendDict, h, LearnerActionType.toStr]
  case AnswerSubmit =>
    refine ⟨LearnerAction.answerSubmit d.action_customization_args d.schema_version,
      ?_, rfl, rfl, rfl⟩
    simp [LearnerActionModel.createFromBackendDict, h, LearnerActionType.toStr]
  case ExplorationQuit =>
    refine ⟨LearnerAction.explorationQuit d.action_customization_args d.schema_version,
      ?_, rfl, rfl, rfl⟩
    simp [LearnerActionModel.createFromBackendDict, h, LearnerActionType.toStr]

/-! ### Claims -/

/-- Claim C1: for every kind K among ExplorationStart, AnswerSubmit and
ExplorationQuit and every structurally valid payload P for K, decoding the
encoding of a freshly created action —
`createFromBackendDict(toBackendDict(create(K, P)))` — yields an Action equal
to `create(K, P)` (hence equal in actionType, actionCustomizationArgs and
schemaVersion, which are all of an Action's components). -/
theorem createFromBackendDict_toBackendDict_create
    (latest : Int) (K : LearnerActionType) (P : CustomizationArgs)
    (h : validArgsFor K P = true) :
    LearnerActionModel.createFromBackendDict
        (LearnerActionModel.create latest K P).toBackendDict =
      Except.ok (LearnerActionModel.create latest K P) := by
  cases K <;>
    simp [LearnerActionModel.create, LearnerActionModel.createNewExplorationStartAction,
      LearnerActionModel.createNewAnswerSubmitAction,
      LearnerActionModel.createNewExplorationQuitAction,
      LearnerAction.toBackendDict, LearnerAction.actionType,
      LearnerAction.actionCustomizationArgs, LearnerAction.schemaVersion,
      LearnerActionModel.createFromBackendDict, LearnerActionType.toStr]

/-- Witness for C1 at K = ExplorationStart, with P the payload whose single
state_name field wraps the string "Introduction", at latest version 1. -/
theorem createFromBackendDict_toBackendDict_create_witness :
    validArgsFor LearnerActionType.ExplorationStart
        [("state_name", JsonValue.obj [("value", JsonLeaf.str "Introduction")])] = true ∧
    LearnerActionModel.createFromBackendDict
        (LearnerActionModel.create 1 LearnerActionType.ExplorationStart
          [("state_name", JsonValue.obj [("value", JsonLeaf.str "Introduction")])]).toBackendDict =
      Except.ok (LearnerActionModel.create 1 LearnerActionType.ExplorationStart
        [("state_name", JsonValue.obj [("value", JsonLeaf.str "Introduction")])]) :=
  ⟨by decide,
    createFromBackendDict_toBackendDict_create 1 LearnerActionType.ExplorationStart
      [("state_name", JsonValue.obj [("value", JsonLeaf.str "Introduction")])] (by decide)⟩

/-- Claim C2: for every dictionary whose action_type is not one of the three
known kinds, `createFromBackendDict` fails with an error whose message
includes the offending dictionary's serialized form (its `angular.toJson`
rendering), and it never returns an Action for such input. -/
theorem createFromBackendDict_unknown_action_type
    (d : LearnerActionBackendDict) (h : isKnownActionType d.action_type = false) :
    LearnerActionModel.createFromBackendDict d =
        Except.error
          ("Backend dict does not match any known action type: " ++ d.toJson) ∧
      ∀ a : LearnerAction,
        LearnerActionModel.createFromBackendDict d ≠ Except.ok a := by
  have hk :
      ¬ d.action_type = "ExplorationStart" ∧
      ¬ d.action_type = "AnswerSubmit" ∧
      ¬ d.action_type = "ExplorationQuit" := by
    have := (isKnownActionType_iff d.action_type)
    constructor
    · intro hc
      exact absurd (this.mpr (Or.inl hc)) (by simp [h])
    constructor
    · intro hc
      exact absurd (this.mpr (Or.inr (Or.inl hc))) (by simp [h])
    · intro hc
      exact absurd (this.mpr (Or.inr (Or.inr hc))) (by simp [h])
  obtain ⟨h1, h2, h3⟩ := hk
  constructor
  · simp [LearnerActionModel.createFromBackendDict, LearnerActionType.toStr, h1, h2, h3]
  · intro a hc
    simp [LearnerActionModel.createFromBackendDict, LearnerActionType.toStr,
      h1, h2, h3] at hc

/-- Witness for C2 at the dictionary with action_type "Bogus". -/
theorem createFromBackendDict_unknown_action_type_witness :
    LearnerActionModel.createFromBackendDict
        { action_type := "Bogus",
          action_customization_args :=
            [("state_name", JsonValue.obj [("value", JsonLeaf.str "Intro")])],
          schema_version := 2 } =
        Except.error
          ("Backend dict does not match any known action type: " ++
            LearnerActionBackendDict.toJson
              { action_type := "Bogus",
                action_customization_args :=
                  [("state_name", JsonValue.obj [("value", JsonLeaf.str "Intro")])],
                schema_version := 2 }) ∧
      ∀ a : LearnerAction,
        LearnerActionModel.createFromBackendDict
            { action_type := "Bogus",
              action_customization_args :=
                [("state_name", JsonValue.obj [("value", JsonLeaf.str "Intro")])],
              schema_version := 2 } ≠ Except.ok a :=
  createFromBackendDict_unknown_action_type
    { action_type := "Bogus",
      action_customization_args :=
        [("state_name", JsonValue.obj [("value", JsonLeaf.str "Intro")])],
      schema_version := 2 } (by decide)

/-- Claim C3: for every kind K and every structurally valid payload P, the
Action returned by the factory method for K has schemaVersion equal to the
latest-schema-version constant supplied at call time. -/
theorem create_schemaVersion_eq_latest
    (latest : Int) (K : LearnerActionType) (P : CustomizationArgs)
    (h : validArgsFor K P = true) :
    (LearnerActionModel.create latest K P).schemaVersion = latest := by
  cases K <;> rfl

/-- Witness for C3 at K = ExplorationQuit with a valid payload and latest
version 7. -/
theorem create_schemaVersion_eq_latest_witness :
    validArgsFor LearnerActionType.ExplorationQuit
        [("state_name", JsonValue.obj [("value", JsonLeaf.str "End")]),
         ("time_spent_in_state_in_msecs", JsonValue.obj [("value", JsonLeaf.num 900)])] = true ∧
    (LearnerActionModel.create 7 LearnerActionType.ExplorationQuit
        [("state_name", JsonValue.obj [("value", JsonLeaf.str "End")]),
         ("time_spent_in_state_in_msecs", JsonValue.obj [("value", JsonLeaf.num 900)])]).schemaVersion = 7 :=
  ⟨by decide,
    create_schemaVersion_eq_latest 7 LearnerActionType.ExplorationQuit
      [("state_name", JsonValue.obj [("value", JsonLeaf.str "End")]),
       ("time_spent_in_state_in_msecs", JsonValue.obj [("value", JsonLeaf.num 900)])] (by decide)⟩

/-- Claim C4: for every wire dictionary with a known action_type,
`createFromBackendDict` succeeds and the returned Action's schemaVersion
equals the dictionary's schema_version exactly as given; the decoder takes no
latest-version input at all, so the preserved version is independent of the
registry constant. -/
theorem createFromBackendDict_preserves_schema_version
    (d : LearnerActionBackendDict) (h : isKnownActionType d.action_type = true) :
    ∃ a : LearnerAction,
      LearnerActionModel.createFromBackendDict d = Except.ok a ∧
      a.schemaVersion = d.schema_version := by
  obtain ⟨K, hK⟩ := exists_kind_of_known d.action_type h
  obtain ⟨a, ha, _, _, hv⟩ := decode_of_action_type_eq d K hK
  exact ⟨a, ha, hv⟩

/-- Witness for C4 at an AnswerSubmit dictionary persisted with
schema_version 3. -/
theorem createFromBackendDict_preserves_schema_version_witness :
    ∃ a : LearnerAction,
      LearnerActionModel.createFromBackendDict
          { action_type := "AnswerSubmit",
            action_customization_args := [],
            schema_version := 3 } = Except.ok a ∧
      a.schemaVersion = 3 :=
  createFromBackendDict_preserves_schema_version
    { action_type := "AnswerSubmit",
      action_customization_args := [],
      schema_version := 3 } (by decide)

/-- Counterexample to claim C5: decoding a wrapped ExplorationStart
dictionary yields an Action whose in-memory payload still carries the
per-field wrapper — the payload is NOT the stripped form
[("state_name", "Intro")] the claim's unwrapping would produce — so decode
does not strip the wrapper and the wrapper is part of the in-memory
representation. -/
theorem createFromBackendDict_keeps_wrapper_counterexample :
    LearnerActionModel.createFromBackendDict
        { action_type := "ExplorationStart",
          action_customization_args :=
            [("state_name", JsonValue.obj [("value", JsonLeaf.str "Intro")])],
          schema_version := 1 } =
      Except.ok (LearnerAction.explorationStart
        [("state_name", JsonValue.obj [("value", JsonLeaf.str "Intro")])] 1) ∧
    (LearnerAction.explorationStart
        [("state_name", JsonValue.obj [("value", JsonLeaf.str "Intro")])]
        1).actionCustomizationArgs ≠
      [("state_name", JsonValue.leaf (JsonLeaf.str "Intro"))] := by
  constructor
  · rfl
  · decide

/-- Claim C5 as amended: the per-field value wrapper is part of the in-memory
payload representation itself (the customization-args interfaces declare each
field as a wrapped value); `toBackendDict` emits `action_customization_args`
verbatim and `createFromBackendDict` carries the dictionary's
`action_customization_args` verbatim into the Action — neither direction adds
or strips the wrapper. -/
theorem codec_passes_customization_args_verbatim
    (a : LearnerAction) (d : LearnerActionBackendDict)
    (h : isKnownActionType d.action_type = true) :
    a.toBackendDict.action_customization_args = a.actionCustomizationArgs ∧
    ∃ b : LearnerAction,
      LearnerActionModel.createFromBackendDict d = Except.ok b ∧
      b.actionCustomizationArgs = d.action_customization_args := by
  constructor
  · rfl
  · obtain ⟨K, hK⟩ := exists_kind_of_known d.action_type h
    obtain ⟨b, hb, _, hargs, _⟩ := decode_of_action_type_eq d K hK
    exact ⟨b, hb, hargs⟩

/-- Witness for the amended C5 at a concrete action and dictionary. -/
theorem codec_passes_customization_args_verbatim_witness :
    (LearnerAction.explorationQuit
        [("state_name", JsonValue.obj [("value", JsonLeaf.str "End")])]
        2).toBackendDict.action_customization_args =
      (LearnerAction.explorationQuit
        [("state_name", JsonValue.obj [("value", JsonLeaf.str "End")])]
        2).actionCustomizationArgs ∧
    ∃ b : LearnerAction,
      LearnerActionModel.createFromBackendDict
          { action_type := "ExplorationQuit",
            action_customization_args :=
              [("state_name", JsonValue.obj [("value", JsonLeaf.str "End")])],
            schema_version := 2 } = Except.ok b ∧
      b.actionCustomizationArgs =
        [("state_name", JsonValue.obj [("value", JsonLeaf.str "End")])] :=
  codec_passes_customization_args_verbatim
    (LearnerAction.explorationQuit
      [("state_name", JsonValue.obj [("value", JsonLeaf.str "End")])] 2)
    { action_type := "ExplorationQuit",
      action_customization_args :=
        [("state_name", JsonValue.obj [("value", JsonLeaf.str "End")])],
      schema_version := 2 } (by decide)

/-- Claim C6: for every kind K in the closed set and every wire dictionary
with action_type = K, `createFromBackendDict` returns an Action of the
subtype (constructor) for K, i.e. whose actionType tag is K; no known tag
reaches the error branch. -/
theorem createFromBackendDict_known_tag_subtype
    (K : LearnerActionType) (d : LearnerActionBackendDict)
    (h : d.action_type = K.toStr) :
    ∃ a : LearnerAction,
      LearnerActionModel.createFromBackendDict d = Except.ok a ∧
      a.actionType = K := by
  obtain ⟨a, ha, htag, _, _⟩ := decode_of_action_type_eq d K h
  exact ⟨a, ha, htag⟩

/-- Witness for C6 at K = AnswerSubmit. -/
theorem createFromBackendDict_known_tag_subtype_witness :
    ∃ a : LearnerAction,
      LearnerActionModel.createFromBackendDict
          { action_type := "AnswerSubmit",
            action_customization_args := [],
            schema_version := 1 } = Except.ok a ∧
      a.actionType = LearnerActionType.AnswerSubmit :=
  createFromBackendDict_known_tag_subtype LearnerActionType.AnswerSubmit
    { action_type := "AnswerSubmit",
      action_customization_args := [],
      schema_version := 1 } rfl

theorem isWrapped_of_isWrappedStr (v : JsonValue) (h : v.isWrappedStr = true) :
    v.isWrapped = true := by
  unfold JsonValue.isWrappedStr at h
  split at h
  · rfl
  · exact absurd h (by simp)

theorem isWrapped_of_isWrappedNum (v : JsonValue) (h : v.isWrappedNum = true) :
    v.isWrapped = true := by
  unfold JsonValue.isWrappedNum at h
  split at h
  · rfl
  · exact absurd h (by simp)

theorem isWrapped_of_fieldOk (K : LearnerActionType) (p : String × JsonValue)
    (h : fieldOk K p = true) : p.2.isWrapped = true := by
  unfold fieldOk at h
  split at h
  · exact isWrapped_of_isWrappedStr _ h
  · exact isWrapped_of_isWrappedNum _ h
  · exact absurd h (by simp)

theorem allFieldsWrapped_of_validArgsFor
    (K : LearnerActionType) (args : CustomizationArgs)
    (h : validArgsFor K args = true) : allFieldsWrapped args = true := by
  unfold validArgsFor at h
  rw [Bool.and_eq_true] at h
  unfold allFieldsWrapped
  rw [List.all_eq_true]
  intro p hp
  exact isWrapped_of_fieldOk K p (List.all_eq_true.mp h.1 p hp)

/-- Claim C7: `toBackendDict` is total over the closed Action union — in this
embedding it is a total function on `LearnerAction` — and its result has
exactly the three wire fields: action_type equal to the action's tag,
action_customization_args equal to the action's payload (whose fields, for a
structurally valid payload, are each in the wrapped value form), and
schema_version equal to the action's stored schemaVersion. -/
theorem toBackendDict_total_and_fields (a : LearnerAction)
    (h : validArgsFor a.actionType a.actionCustomizationArgs = true) :
    a.toBackendDict.action_type = a.actionType.toStr ∧
    a.toBackendDict.action_customization_args = a.actionCustomizationArgs ∧
    a.toBackendDict.schema_version = a.schemaVersion ∧
    allFieldsWrapped a.toBackendDict.action_customization_args = true := by
  refine ⟨rfl, rfl, rfl, ?_⟩
  exact allFieldsWrapped_of_validArgsFor a.actionType a.actionCustomizationArgs h

/-- Witness for C7 at a concrete AnswerSubmit action with its full valid
payload. -/
theorem toBackendDict_total_and_fields_witness :
    validArgsFor
        (LearnerAction.answerSubmit
          [("state_name", JsonValue.obj [("value", JsonLeaf.str "S1")]),
           ("dest_state_name", JsonValue.obj [("value", JsonLeaf.str "S2")]),
           ("interaction_id", JsonValue.obj [("value", JsonLeaf.str "TextInput")]),
           ("submitted_answer", JsonValue.obj [("value", JsonLeaf.str "42")]),
           ("feedback", JsonValue.obj [("value", JsonLeaf.str "Good")]),
           ("time_spent_state_in_msecs", JsonValue.obj [("value", JsonLeaf.num 1500)])]
          1).actionType
        (LearnerAction.answerSubmit
          [("state_name", JsonValue.obj [("value", JsonLeaf.str "S1")]),
           ("dest_state_name", JsonValue.obj [("value", JsonLeaf.str "S2")]),
           ("interaction_id", JsonValue.obj [("value", JsonLeaf.str "TextInput")]),
           ("submitted_answer", JsonValue.obj [("value", JsonLeaf.str "42")]),
           ("feedback", JsonValue.obj [("value", JsonLeaf.str "Good")]),
           ("time_spent_state_in_msecs", JsonValue.obj [("value", JsonLeaf.num 1500)])]
          1).actionCustomizationArgs = true ∧
    (LearnerAction.answerSubmit
        [("state_name", JsonValue.obj [("value", JsonLeaf.str "S1")]),
         ("dest_state_name", JsonValue.obj [("value", JsonLeaf.str "S2")]),
         ("interaction_id", JsonValue.obj [("value", JsonLeaf.str "TextInput")]),
         ("submitted_answer", JsonValue.obj [("value", JsonLeaf.str "42")]),
         ("feedback", JsonValue.obj [("value", JsonLeaf.str "Good")]),
         ("time_spent_state_in_msecs", JsonValue.obj [("value", JsonLeaf.num 1500)])]
        1).toBackendDict.action_customization_args =
      [("state_name", JsonValue.obj [("value", JsonLeaf.str "S1")]),
       ("dest_state_name", JsonValue.obj [("value", JsonLeaf.str "S2")]),
       ("interaction_id", JsonValue.obj [("value", JsonLeaf.str "TextInput")]),
       ("submitted_answer", JsonValue.obj [("value", JsonLeaf.str "42")]),
       ("feedback", JsonValue.obj [("value", JsonLeaf.str "Good")]),
       ("time_spent_state_in_msecs", JsonValue.obj [("value", JsonLeaf.num 1500)])] ∧
    allFieldsWrapped
        [("state_name", JsonValue.obj [("value", JsonLeaf.str "S1")]),
         ("dest_state_name", JsonValue.obj [("value", JsonLeaf.str "S2")]),
         ("interaction_id", JsonValue.obj [("value", JsonLeaf.str "TextInput")]),
         ("submitted_answer", JsonValue.obj [("value", JsonLeaf.str "42")]),
         ("feedback", JsonValue.obj [("value", JsonLeaf.str "Good")]),
         ("time_spent_state_in_msecs", JsonValue.obj [("value", JsonLeaf.num 1500)])] = true := by
  have base := toBackendDict_total_and_fields
    (LearnerAction.answerSubmit
      [("state_name", JsonValue.obj [("value", JsonLeaf.str "S1")]),
       ("dest_state_name", JsonValue.obj [("value", JsonLeaf.str "S2")]),
       ("interaction_id", JsonValue.obj [("value", JsonLeaf.str "TextInput")]),
       ("submitted_answer", JsonValue.obj [("value", JsonLeaf.str "42")]),
       ("feedback", JsonValue.obj [("value", JsonLeaf.str "Good")]),
       ("time_spent_state_in_msecs", JsonValue.obj [("value", JsonLeaf.num 1500)])]
      1) (by decide)
  exact ⟨by decide, base.2.1, base.2.2.2⟩

/-- Counterexample to claim C8: `schemaVersion` is NOT fixed for the object's
lifetime — it is a plain public field (the constructor declares it without
`readonly`), so assignment to it succeeds, here turning a version-1 action
into a version-5 action. -/
theorem setSchemaVersion_succeeds_counterexample :
    (LearnerAction.explorationStart
        [("state_name", JsonValue.obj [("value", JsonLeaf.str "Intro")])]
        1).setSchemaVersion 5 ≠ none ∧
    (LearnerAction.explorationStart
        [("state_name", JsonValue.obj [("value", JsonLeaf.str "Intro")])]
        1).setSchemaVersion 5 =
      some (LearnerAction.explorationStart
        [("state_name", JsonValue.obj [("value", JsonLeaf.str "Intro")])]
        5) := by
  constructor
  · decide
  · rfl

/-- Claim C8 as amended: after creation only the tag (`actionType`, declared
`readonly`) is fixed for the object's lifetime; both the customization-args
payload and `schemaVersion` are plain public fields that callers may
reassign — assignment to `actionType` is rejected while assignments to
`actionCustomizationArgs` and `schemaVersion` succeed. -/
theorem only_actionType_immutable (a : LearnerAction) (t : LearnerActionType)
    (v : Int) (args : CustomizationArgs) :
    a.setActionType t = none ∧
    (a.setSchemaVersion v).isSome = true ∧
    (a.setActionCustomizationArgs args).isSome = true := by
  refine ⟨rfl, ?_, ?_⟩ <;> cases a <;> rfl

/-- Claim C9: the factory methods, `toBackendDict` and
`createFromBackendDict` are deterministic pure functions of their inputs
(including, for the factory, the value of the latest-schema-version
constant): equal inputs give equal results, and in particular equal
success-versus-failure outcomes for the decoder; in this embedding they are
total functions on immutable values, so no state outside the returned value
exists to be modified. -/
theorem model_operations_deterministic
    (a b : LearnerAction) (d e : LearnerActionBackendDict)
    (l m : Int) (K L : LearnerActionType) (P Q : CustomizationArgs)
    (hab : a = b) (hde : d = e) (hlm : l = m) (hKL : K = L) (hPQ : P = Q) :
    a.toBackendDict = b.toBackendDict ∧
    LearnerActionModel.createFromBackendDict d =
      LearnerActionModel.createFromBackendDict e ∧
    (LearnerActionModel.createFromBackendDict d).isOk =
      (LearnerActionModel.createFromBackendDict e).isOk ∧
    LearnerActionModel.create l K P = LearnerActionModel.create m L Q := by
  subst hab
  subst hde
  subst hlm
  subst hKL
  subst hPQ
  exact ⟨rfl, rfl, rfl, rfl⟩

/-- Witness for C9 at concrete equal inputs. -/
theorem model_operations_deterministic_witness :
    (LearnerAction.explorationQuit [] 1).toBackendDict =
      (LearnerAction.explorationQuit [] 1).toBackendDict ∧
    LearnerActionModel.createFromBackendDict
        { action_type := "Bogus", action_customization_args := [], schema_version := 1 } =
      LearnerActionModel.createFromBackendDict
        { action_type := "Bogus", action_customization_args := [], schema_version := 1 } ∧
    (LearnerActionModel.createFromBackendDict
        { action_type := "Bogus", action_customization_args := [], schema_version := 1 }).isOk =
      (LearnerActionModel.createFromBackendDict
        { action_type := "Bogus", action_customization_args := [], schema_version := 1 }).isOk ∧
    LearnerActionModel.create 1 LearnerActionType.ExplorationStart [] =
      LearnerActionModel.create 1 LearnerActionType.ExplorationStart [] :=
  model_operations_deterministic
    (LearnerAction.explorationQuit [] 1) (LearnerAction.explorationQuit [] 1)
    { action_type := "Bogus", action_customization_args := [], schema_version := 1 }
    { action_type := "Bogus", action_customization_args := [], schema_version := 1 }
    1 1 LearnerActionType.ExplorationStart LearnerActionType.ExplorationStart
    [] [] rfl rfl rfl rfl rfl

/-- Claim C10: `createFromBackendDict` inspects only the `action_type` field:
for every dictionary whose action_type is one of the three known kinds —
whatever its `action_customization_args` (even ones missing declared payload
fields) and whatever its `schema_version` (even non-positive) — decoding
succeeds and returns an Action carrying the dictionary's
action_customization_args and schema_version values unchanged, with no
validation of either. -/
theorem createFromBackendDict_no_validation
    (d : LearnerActionBackendDict) (h : isKnownActionType d.action_type = true) :
    ∃ a : LearnerAction,
      LearnerActionModel.createFromBackendDict d = Except.ok a ∧
      a.actionType.toStr = d.action_type ∧
      a.actionCustomizationArgs = d.action_customization_args ∧
      a.schemaVersion = d.schema_version := by
  obtain ⟨K, hK⟩ := exists_kind_of_known d.action_type h
  obtain ⟨a, ha, htag, hargs, hv⟩ := decode_of_action_type_eq d K hK
  exact ⟨a, ha, by rw [htag, hK], hargs, hv⟩

/-- Witness for C10 at a dictionary with an empty payload (every declared
field missing) and a negative schema_version, both accepted unchanged. -/
theorem createFromBackendDict_no_validation_witness :
    ∃ a : LearnerAction,
      LearnerActionModel.createFromBackendDict
          { action_type := "ExplorationQuit",
            action_customization_args := [],
            schema_version := -3 } = Except.ok a ∧
      a.actionType.toStr = "ExplorationQuit" ∧
      a.actionCustomizationArgs = [] ∧
      a.schemaVersion = -3 :=
  createFromBackendDict_no_validation
    { action_type := "ExplorationQuit",
      action_customization_args := [],
      schema_version := -3 } (by decide)
